import Mathlib

/-!
Verification of the TRS (Tracheostomy Risk Score) calculator.

Shallow embedding of the scoring logic of `src/core.py` (class `TRSCalculator`),
the constant tables of `src/constants.py`, and the optimal cut-point selection
of `src/plotting/plot_roc_matrix_CLEAN.py` (`generate_roc_data`).

Python floats are modelled as rationals (ℚ), Python ints as ℤ, `None`-able
parameters as `Option`, raised `ValueError`s as `Except String`.
-/

namespace TRS

/-! ## Constants (src/constants.py) -/

/-- Cut-point for the MELD component (`TRS_CUTPOINTS["MELD"]`). -/
def TRS_CUTPOINTS_MELD : ℚ := 20

/-- Cut-point for the SAPS II component (`TRS_CUTPOINTS["SAPS_II"]`). -/
def TRS_CUTPOINTS_SAPS_II : ℚ := 42

/-- Cut-point for the age component (`TRS_CUTPOINTS["AGE"]`). -/
def TRS_CUTPOINTS_AGE : ℚ := 52

/-- Cut-point for the platelet component (`TRS_CUTPOINTS["PLATELETS"]`). -/
def TRS_CUTPOINTS_PLATELETS : ℚ := 78

/-- Point weight for MELD (`TRS_POINTS["MELD"]`). -/
def TRS_POINTS_MELD : Int := 2

/-- Point weight for SAPS II (`TRS_POINTS["SAPS_II"]`). -/
def TRS_POINTS_SAPS_II : Int := 1

/-- Point weight for age (`TRS_POINTS["AGE"]`). -/
def TRS_POINTS_AGE : Int := 1

/-- Point weight for platelets (`TRS_POINTS["PLATELETS"]`). -/
def TRS_POINTS_PLATELETS : Int := 1

/-- Point weight for HCC (`TRS_POINTS["HCC"]`). -/
def TRS_POINTS_HCC : Int := 1

/-- Point weight for CVVHD (`TRS_POINTS["CVVHD"]`). -/
def TRS_POINTS_CVVHD : Int := 1

/-- Point weight for VHF (`TRS_POINTS["VHF"]`). -/
def TRS_POINTS_VHF : Int := 1

/-- Maximum possible TRS score, `MAX_SCORE = sum(TRS_POINTS.values())`. -/
def MAX_SCORE : Int :=
  TRS_POINTS_MELD + TRS_POINTS_SAPS_II + TRS_POINTS_AGE + TRS_POINTS_PLATELETS +
    TRS_POINTS_HCC + TRS_POINTS_CVVHD + TRS_POINTS_VHF

/-- Valid range of MELD (`VARIABLE_DEFINITIONS["MELD"]["range"]`). -/
def MELD_RANGE : ℚ × ℚ := (6, 40)

/-- Valid range of SAPS II (`VARIABLE_DEFINITIONS["SAPS_II"]["range"]`). -/
def SAPS_II_RANGE : ℚ × ℚ := (0, 163)

/-- Valid range of age (`VARIABLE_DEFINITIONS["AGE"]["range"]`). -/
def AGE_RANGE : ℚ × ℚ := (18, 80)

/-- Valid range of platelets (`VARIABLE_DEFINITIONS["PLATELETS"]["range"]`). -/
def PLATELETS_RANGE : ℚ × ℚ := (10, 500)

/-- One entry of the `RISK_CATEGORIES` table of src/constants.py. -/
structure RiskData where
  range_lo : Int
  range_hi : Int
  mortality_rate : ℚ
  description : String
  recommendation : String
deriving DecidableEq, Repr

/-- `RISK_CATEGORIES["LOW"]`. -/
def LOW_DATA : RiskData :=
  { range_lo := 0, range_hi := 1, mortality_rate := 0.10,
    description := "Low Risk", recommendation := "Standard weaning protocol" }

/-- `RISK_CATEGORIES["MEDIUM"]`. -/
def MEDIUM_DATA : RiskData :=
  { range_lo := 2, range_hi := 2, mortality_rate := 0.33,
    description := "Medium Risk", recommendation := "Enhanced monitoring and assessment" }

/-- `RISK_CATEGORIES["HIGH"]`. -/
def HIGH_DATA : RiskData :=
  { range_lo := 3, range_hi := 8, mortality_rate := 0.46,
    description := "High Risk", recommendation := "Consider early tracheostomy (Day 5-7)" }

/-- `RISK_CATEGORIES`, in dict insertion order (iteration order of the Python loop). -/
def RISK_CATEGORIES : List (String × RiskData) :=
  [("LOW", LOW_DATA), ("MEDIUM", MEDIUM_DATA), ("HIGH", HIGH_DATA)]

/-- One entry of the `PERFORMANCE_METRICS` table of src/constants.py. -/
structure PerfMetric where
  original : ℚ
  bootstrap_mean : ℚ
  bias_corrected : ℚ
  ci_95_lo : ℚ
  ci_95_hi : ℚ
  optimism : ℚ
deriving DecidableEq, Repr

/-- `PERFORMANCE_METRICS["C_INDEX"]`. -/
def C_INDEX : PerfMetric :=
  { original := 0.754, bootstrap_mean := 0.761, bias_corrected := 0.742,
    ci_95_lo := 0.628, ci_95_hi := 0.856, optimism := 0.012 }

/-- `PERFORMANCE_METRICS["AUC_60_DAY"]`. -/
def AUC_60_DAY : PerfMetric :=
  { original := 0.754, bootstrap_mean := 0.759, bias_corrected := 0.745,
    ci_95_lo := 0.631, ci_95_hi := 0.859, optimism := 0.009 }

/-- `PERFORMANCE_METRICS["BRIER_SCORE"]`. -/
def BRIER_SCORE : PerfMetric :=
  { original := 0.186, bootstrap_mean := 0.184, bias_corrected := 0.188,
    ci_95_lo := 0.142, ci_95_hi := 0.234, optimism := -0.002 }

/-- `PERFORMANCE_METRICS` as a name-keyed table. -/
def PERFORMANCE_METRICS : List (String × PerfMetric) :=
  [("C_INDEX", C_INDEX), ("AUC_60_DAY", AUC_60_DAY), ("BRIER_SCORE", BRIER_SCORE)]

/-! ## Data model (src/core.py) -/

/-- The keyword arguments of `TRSCalculator.calculate_score`; each may be `None`. -/
structure TRSInput where
  meld : Option ℚ
  saps_ii : Option ℚ
  age : Option ℚ
  platelets : Option ℚ
  hcc : Option Bool
  cvvhd : Option Bool
  vhf : Option Bool
deriving DecidableEq, Repr

/-- The fields of the `TRSResult` dataclass that carry the computation
(the wall-clock `timestamp` and the human-readable `details` strings are
not modelled). `component_scores` is the insertion-ordered dict. -/
structure TRSResult where
  total_score : Int
  component_scores : List (String × Int)
  risk_category : String
  risk_description : String
  recommendation : String
  mortality_risk : ℚ
  valid : Bool
  warnings : List String
deriving DecidableEq, Repr

/-! ## TRSCalculator methods (src/core.py) -/

/-- One inline range check of `TRSCalculator._validate_inputs`: a present value
outside `[lo, hi]` raises `ValueError`. -/
def checkRange (name : String) (lo hi : ℚ) (v : Option ℚ) : Except String Unit :=
  match v with
  | none => Except.ok ()
  | some x =>
    if lo ≤ x ∧ x ≤ hi then Except.ok ()
    else Except.error (name ++ " must be between " ++ toString lo ++ " and " ++
      toString hi ++ ", got " ++ toString x)

/-- `TRSCalculator._validate_inputs`: the four range checks run in sequence,
the first failure raising (boolean variables are not range-checked). -/
def _validate_inputs (inp : TRSInput) : Except String Unit :=
  match checkRange "MELD score" MELD_RANGE.1 MELD_RANGE.2 inp.meld with
  | Except.error e => Except.error e
  | Except.ok _ =>
    match checkRange "SAPS II score" SAPS_II_RANGE.1 SAPS_II_RANGE.2 inp.saps_ii with
    | Except.error e => Except.error e
    | Except.ok _ =>
      match checkRange "Age" AGE_RANGE.1 AGE_RANGE.2 inp.age with
      | Except.error e => Except.error e
      | Except.ok _ =>
        checkRange "Platelet count" PLATELETS_RANGE.1 PLATELETS_RANGE.2 inp.platelets

/-- `TRSCalculator._check_missing_data`: names of the `None` components,
in parameter order. -/
def _check_missing_data (inp : TRSInput) : List String :=
  (if inp.meld.isNone then ["MELD"] else []) ++
  (if inp.saps_ii.isNone then ["SAPS_II"] else []) ++
  (if inp.age.isNone then ["AGE"] else []) ++
  (if inp.platelets.isNone then ["PLATELETS"] else []) ++
  (if inp.hcc.isNone then ["HCC"] else []) ++
  (if inp.cvvhd.isNone then ["CVVHD"] else []) ++
  (if inp.vhf.isNone then ["VHF"] else [])

/-- `TRSCalculator._determine_risk_category`: first matching category of the
`RISK_CATEGORIES` table, with the fallback for out-of-table scores. -/
def _determine_risk_category (score : Int) : String × RiskData :=
  match RISK_CATEGORIES.find? (fun cd => decide (cd.2.range_lo ≤ score ∧ score ≤ cd.2.range_hi)) with
  | some cd => cd
  | none => if score < 0 then ("LOW", LOW_DATA) else ("HIGH", HIGH_DATA)

/-- MELD block of `calculate_score` (core.py lines 145-155): returns the
`component_scores` entries, the increment of `total_score`, and the warnings
the block appends. -/
def meldComponent (meld : Option ℚ) : List (String × Int) × Int × List String :=
  match meld with
  | some m =>
    if m > TRS_CUTPOINTS_MELD then ([("MELD", TRS_POINTS_MELD)], TRS_POINTS_MELD, [])
    else ([("MELD", 0)], 0, [])
  | none => ([], 0, ["MELD score missing"])

/-- SAPS II block of `calculate_score` (core.py lines 157-167). -/
def sapsComponent (saps_ii : Option ℚ) : List (String × Int) × Int × List String :=
  match saps_ii with
  | some s =>
    if s > TRS_CUTPOINTS_SAPS_II then ([("SAPS_II", TRS_POINTS_SAPS_II)], TRS_POINTS_SAPS_II, [])
    else ([("SAPS_II", 0)], 0, [])
  | none => ([], 0, ["SAPS II score missing"])

/-- Age block of `calculate_score` (core.py lines 169-179). -/
def ageComponent (age : Option ℚ) : List (String × Int) × Int × List String :=
  match age with
  | some a =>
    if a > TRS_CUTPOINTS_AGE then ([("AGE", TRS_POINTS_AGE)], TRS_POINTS_AGE, [])
    else ([("AGE", 0)], 0, [])
  | none => ([], 0, ["Age missing"])

/-- Platelet block of `calculate_score` (core.py lines 181-191); note the
reversed direction, points for a value strictly below the cut-point. -/
def plateletsComponent (platelets : Option ℚ) : List (String × Int) × Int × List String :=
  match platelets with
  | some p =>
    if p < TRS_CUTPOINTS_PLATELETS then
      ([("PLATELETS", TRS_POINTS_PLATELETS)], TRS_POINTS_PLATELETS, [])
    else ([("PLATELETS", 0)], 0, [])
  | none => ([], 0, ["Platelet count missing"])

/-- HCC block of `calculate_score` (core.py lines 193-203). -/
def hccComponent (hcc : Option Bool) : List (String × Int) × Int × List String :=
  match hcc with
  | some b =>
    if b then ([("HCC", TRS_POINTS_HCC)], TRS_POINTS_HCC, [])
    else ([("HCC", 0)], 0, [])
  | none => ([], 0, ["HCC status missing"])

/-- CVVHD block of `calculate_score` (core.py lines 205-215). -/
def cvvhdComponent (cvvhd : Option Bool) : List (String × Int) × Int × List String :=
  match cvvhd with
  | some b =>
    if b then ([("CVVHD", TRS_POINTS_CVVHD)], TRS_POINTS_CVVHD, [])
    else ([("CVVHD", 0)], 0, [])
  | none => ([], 0, ["CVVHD status missing"])

/-- VHF block of `calculate_score` (core.py lines 217-227). -/
def vhfComponent (vhf : Option Bool) : List (String × Int) × Int × List String :=
  match vhf with
  | some b =>
    if b then ([("VHF", TRS_POINTS_VHF)], TRS_POINTS_VHF, [])
    else ([("VHF", 0)], 0, [])
  | none => ([], 0, ["VHF status missing"])

/-- The pure tail of `calculate_score` after input validation (core.py lines
134-251): component scores, total, risk category, validity, warnings. -/
def computeResult (inp : TRSInput) : TRSResult :=
  let missing_components := _check_missing_data inp
  let mc := meldComponent inp.meld
  let sc := sapsComponent inp.saps_ii
  let ac := ageComponent inp.age
  let pc := plateletsComponent inp.platelets
  let hc := hccComponent inp.hcc
  let cc := cvvhdComponent inp.cvvhd
  let vc := vhfComponent inp.vhf
  let component_scores := mc.1 ++ sc.1 ++ ac.1 ++ pc.1 ++ hc.1 ++ cc.1 ++ vc.1
  let total_score := mc.2.1 + sc.2.1 + ac.2.1 + pc.2.1 + hc.2.1 + cc.2.1 + vc.2.1
  let componentWarnings := mc.2.2 ++ sc.2.2 ++ ac.2.2 ++ pc.2.2 ++ hc.2.2 ++ cc.2.2 ++ vc.2.2
  let rc := _determine_risk_category total_score
  let valid : Bool := decide (missing_components.length ≤ 2)
  { total_score := total_score
    component_scores := component_scores
    risk_category := rc.1
    risk_description := rc.2.description
    recommendation := rc.2.recommendation
    mortality_risk := rc.2.mortality_rate
    valid := valid
    warnings :=
      if valid then componentWarnings
      else componentWarnings ++
        ["Too many missing components (" ++ toString missing_components.length ++
          "). Results may be unreliable."] }

/-- `TRSCalculator.calculate_score`: validates when `validate_inputs` is set
(raising `ValueError` on an out-of-range present value), then computes the
score from the present components. -/
def calculate_score (validate_inputs : Bool) (inp : TRSInput) : Except String TRSResult :=
  if validate_inputs then
    match _validate_inputs inp with
    | Except.error e => Except.error e
    | Except.ok _ => Except.ok (computeResult inp)
  else
    Except.ok (computeResult inp)

/-- The sentinel error result `calculate_batch` records for a patient whose
`calculate_score` raised (core.py lines 362-377). -/
def errorResult (e : String) : TRSResult :=
  { total_score := -1
    component_scores := []
    risk_category := "ERROR"
    risk_description := "Calculation Error"
    recommendation := "Unable to calculate - check input data"
    mortality_risk := 0.0
    valid := false
    warnings := ["Calculation failed: " ++ e] }

/-- `TRSCalculator.calculate_batch`: per-patient try/except, an exception
becoming a recorded `errorResult` entry in place. -/
def calculate_batch (validate_inputs : Bool) (patients_data : List TRSInput) : List TRSResult :=
  patients_data.map fun p =>
    match calculate_score validate_inputs p with
    | Except.ok r => r
    | Except.error e => errorResult e

/-! ## Optimal cut-point selection (src/plotting/plot_roc_matrix_CLEAN.py) -/

/-- `youden_scores = tpr - fpr` of `generate_roc_data` (line 65). -/
def youdenScores (tpr fpr : List ℚ) : List ℚ :=
  List.zipWith (fun t f => t - f) tpr fpr

/-- `np.argmax`: index of the first occurrence of the maximum
(0 on the empty list, as a total function). -/
def argmaxFirst : List ℚ → Nat
  | [] => 0
  | [_] => 0
  | x :: y :: t =>
    let j := argmaxFirst (y :: t)
    if (y :: t).getD j 0 ≤ x then 0 else j + 1

/-- Lines 64-70 of `generate_roc_data`: the optimal cut-point by Youden index
over the ROC operating points `(fpr, tpr, thresholds)`, returning
`(optimal_threshold, sensitivity, specificity, youden_index)`. -/
def selectCutpoint (fpr tpr thresholds : List ℚ) : ℚ × ℚ × ℚ × ℚ :=
  let youden := youdenScores tpr fpr
  let i := argmaxFirst youden
  (thresholds.getD i 0, tpr.getD i 0, 1 - fpr.getD i 0, youden.getD i 0)

/-! ## Helper lemmas -/

theorem calculate_score_ok {v : Bool} {inp : TRSInput} {r : TRSResult}
    (h : calculate_score v inp = Except.ok r) : r = computeResult inp := by
  unfold calculate_score at h
  split at h
  · cases hv : _validate_inputs inp with
    | error e => rw [hv] at h; cases h
    | ok u => rw [hv] at h; cases h; rfl
  · cases h; rfl

theorem lookup_eq_none_of_keys {k : String} {l : List (String × Int)}
    (h : ∀ p ∈ l, p.1 ≠ k) : l.lookup k = none := by
  induction l with
  | nil => rfl
  | cons a t ih =>
    obtain ⟨ak, av⟩ := a
    have ha : ak ≠ k := h (ak, av) (List.mem_cons_self _ _)
    have hb : (k == ak) = false := by
      simp only [beq_eq_false_iff_ne]
      exact fun hk => ha hk.symm
    simp only [List.lookup, hb]
    exact ih fun p hp => h p (List.mem_cons_of_mem _ hp)

theorem lookup_append_left {k : String} {v : Int} {l₁ l₂ : List (String × Int)}
    (h : l₁.lookup k = some v) : (l₁ ++ l₂).lookup k = some v := by
  induction l₁ with
  | nil => simp [List.lookup] at h
  | cons a t ih =>
    obtain ⟨ak, av⟩ := a
    simp only [List.lookup, List.cons_append] at h ⊢
    cases hk : (k == ak) with
    | true => rw [hk] at h; simpa [hk] using h
    | false => rw [hk] at h; simpa [hk] using ih h

theorem lookup_append_right {k : String} {l₁ l₂ : List (String × Int)}
    (h : l₁.lookup k = none) : (l₁ ++ l₂).lookup k = l₂.lookup k := by
  induction l₁ with
  | nil => rfl
  | cons a t ih =>
    obtain ⟨ak, av⟩ := a
    simp only [List.lookup, List.cons_append] at h ⊢
    cases hk : (k == ak) with
    | true => rw [hk] at h; cases h
    | false => rw [hk] at h; simpa [hk] using ih h

theorem meldComponent_facts (x : Option ℚ) :
    (∀ p ∈ (meldComponent x).1, p.1 = "MELD") ∧
    ((meldComponent x).1.map Prod.snd).sum = (meldComponent x).2.1 ∧
    0 ≤ (meldComponent x).2.1 ∧ (meldComponent x).2.1 ≤ TRS_POINTS_MELD := by
  cases x with
  | none => simp [meldComponent, TRS_POINTS_MELD]
  | some m => simp only [meldComponent]; split <;> simp [TRS_POINTS_MELD]

theorem sapsComponent_facts (x : Option ℚ) :
    (∀ p ∈ (sapsComponent x).1, p.1 = "SAPS_II") ∧
    ((sapsComponent x).1.map Prod.snd).sum = (sapsComponent x).2.1 ∧
    0 ≤ (sapsComponent x).2.1 ∧ (sapsComponent x).2.1 ≤ TRS_POINTS_SAPS_II := by
  cases x with
  | none => simp [sapsComponent, TRS_POINTS_SAPS_II]
  | some m => simp only [sapsComponent]; split <;> simp [TRS_POINTS_SAPS_II]

theorem ageComponent_facts (x : Option ℚ) :
    (∀ p ∈ (ageComponent x).1, p.1 = "AGE") ∧
    ((ageComponent x).1.map Prod.snd).sum = (ageComponent x).2.1 ∧
    0 ≤ (ageComponent x).2.1 ∧ (ageComponent x).2.1 ≤ TRS_POINTS_AGE := by
  cases x with
  | none => simp [ageComponent, TRS_POINTS_AGE]
  | some m => simp only [ageComponent]; split <;> simp [TRS_POINTS_AGE]

theorem plateletsComponent_facts (x : Option ℚ) :
    (∀ p ∈ (plateletsComponent x).1, p.1 = "PLATELETS") ∧
    ((plateletsComponent x).1.map Prod.snd).sum = (plateletsComponent x).2.1 ∧
    0 ≤ (plateletsComponent x).2.1 ∧ (plateletsComponent x).2.1 ≤ TRS_POINTS_PLATELETS := by
  cases x with
  | none => simp [plateletsComponent, TRS_POINTS_PLATELETS]
  | some m => simp only [plateletsComponent]; split <;> simp [TRS_POINTS_PLATELETS]

theorem hccComponent_facts (x : Option Bool) :
    (∀ p ∈ (hccComponent x).1, p.1 = "HCC") ∧
    ((hccComponent x).1.map Prod.snd).sum = (hccComponent x).2.1 ∧
    0 ≤ (hccComponent x).2.1 ∧ (hccComponent x).2.1 ≤ TRS_POINTS_HCC := by
  cases x with
  | none => simp [hccComponent, TRS_POINTS_HCC]
  | some b => simp only [hccComponent]; split <;> simp [TRS_POINTS_HCC]

theorem cvvhdComponent_facts (x : Option Bool) :
    (∀ p ∈ (cvvhdComponent x).1, p.1 = "CVVHD") ∧
    ((cvvhdComponent x).1.map Prod.snd).sum = (cvvhdComponent x).2.1 ∧
    0 ≤ (cvvhdComponent x).2.1 ∧ (cvvhdComponent x).2.1 ≤ TRS_POINTS_CVVHD := by
  cases x with
  | none => simp [cvvhdComponent, TRS_POINTS_CVVHD]
  | some b => simp only [cvvhdComponent]; split <;> simp [TRS_POINTS_CVVHD]

theorem vhfComponent_facts (x : Option Bool) :
    (∀ p ∈ (vhfComponent x).1, p.1 = "VHF") ∧
    ((vhfComponent x).1.map Prod.snd).sum = (vhfComponent x).2.1 ∧
    0 ≤ (vhfComponent x).2.1 ∧ (vhfComponent x).2.1 ≤ TRS_POINTS_VHF := by
  cases x with
  | none => simp [vhfComponent, TRS_POINTS_VHF]
  | some b => simp only [vhfComponent]; split <;> simp [TRS_POINTS_VHF]

theorem computeResult_component_scores (inp : TRSInput) :
    (computeResult inp).component_scores =
      (meldComponent inp.meld).1 ++ (sapsComponent inp.saps_ii).1 ++ (ageComponent inp.age).1 ++
      (plateletsComponent inp.platelets).1 ++ (hccComponent inp.hcc).1 ++
      (cvvhdComponent inp.cvvhd).1 ++ (vhfComponent inp.vhf).1 := rfl

theorem computeResult_total_score (inp : TRSInput) :
    (computeResult inp).total_score =
      (meldComponent inp.meld).2.1 + (sapsComponent inp.saps_ii).2.1 +
      (ageComponent inp.age).2.1 + (plateletsComponent inp.platelets).2.1 +
      (hccComponent inp.hcc).2.1 + (cvvhdComponent inp.cvvhd).2.1 +
      (vhfComponent inp.vhf).2.1 := rfl

theorem computeResult_valid (inp : TRSInput) :
    (computeResult inp).valid = decide ((_check_missing_data inp).length ≤ 2) := rfl

theorem computeResult_risk_category (inp : TRSInput) :
    (computeResult inp).risk_category =
      (_determine_risk_category (computeResult inp).total_score).1 := rfl

theorem determine_spec (s : Int) :
    _determine_risk_category s =
      if 0 ≤ s ∧ s ≤ 1 then ("LOW", LOW_DATA)
      else if 2 ≤ s ∧ s ≤ 2 then ("MEDIUM", MEDIUM_DATA)
      else if 3 ≤ s ∧ s ≤ 8 then ("HIGH", HIGH_DATA)
      else if s < 0 then ("LOW", LOW_DATA)
      else ("HIGH", HIGH_DATA) := by
  unfold _determine_risk_category RISK_CATEGORIES
  by_cases h1 : (0 : Int) ≤ s ∧ s ≤ 1
  · simp [List.find?, LOW_DATA, h1]
  · by_cases h2 : (2 : Int) ≤ s ∧ s ≤ 2
    · simp [List.find?, LOW_DATA, MEDIUM_DATA, h1, h2]
    · by_cases h3 : (3 : Int) ≤ s ∧ s ≤ 8
      · simp [List.find?, LOW_DATA, MEDIUM_DATA, HIGH_DATA, h1, h2, h3]
      · simp [List.find?, LOW_DATA, MEDIUM_DATA, HIGH_DATA, h1, h2, h3]

theorem argmaxFirst_is_max (xs : List ℚ) :
    ∀ k, k < xs.length → xs.getD k 0 ≤ xs.getD (argmaxFirst xs) 0 := by
  induction xs with
  | nil => intro k hk; simp at hk
  | cons x t ih =>
    intro k hk
    cases t with
    | nil =>
      cases k with
      | zero => simp [argmaxFirst]
      | succ k' => simp at hk
    | cons y t' =>
      have hrec : argmaxFirst (x :: y :: t') =
          if (y :: t').getD (argmaxFirst (y :: t')) 0 ≤ x then 0
          else argmaxFirst (y :: t') + 1 := rfl
      rw [hrec]
      by_cases hc : (y :: t').getD (argmaxFirst (y :: t')) 0 ≤ x
      · rw [if_pos hc]
        cases k with
        | zero => simp
        | succ k' =>
          simp only [List.getD_cons_succ, List.getD_cons_zero]
          have hk' : k' < (y :: t').length := by simpa using hk
          exact le_trans (ih k' hk') hc
      · rw [if_neg hc]
        cases k with
        | zero =>
          simp only [List.getD_cons_succ, List.getD_cons_zero]
          exact le_of_lt (lt_of_not_le hc)
        | succ k' =>
          simp only [List.getD_cons_succ]
          have hk' : k' < (y :: t').length := by simpa using hk
          exact ih k' hk'

theorem argmaxFirst_strict_before (xs : List ℚ) :
    ∀ j, j < argmaxFirst xs → xs.getD j 0 < xs.getD (argmaxFirst xs) 0 := by
  induction xs with
  | nil => intro j hj; simp [argmaxFirst] at hj
  | cons x t ih =>
    intro j hj
    cases t with
    | nil => simp [argmaxFirst] at hj
    | cons y t' =>
      have hrec : argmaxFirst (x :: y :: t') =
          if (y :: t').getD (argmaxFirst (y :: t')) 0 ≤ x then 0
          else argmaxFirst (y :: t') + 1 := rfl
      rw [hrec] at hj ⊢
      by_cases hc : (y :: t').getD (argmaxFirst (y :: t')) 0 ≤ x
      · rw [if_pos hc] at hj; omega
      · rw [if_neg hc] at hj ⊢
        cases j with
        | zero =>
          simp only [List.getD_cons_succ, List.getD_cons_zero]
          exact lt_of_not_le hc
        | succ j' =>
          simp only [List.getD_cons_succ]
          exact ih j' (by omega)

/-! ## Claim theorems -/

/-- Claim C3: for every metric in the recorded validation report table
(C_INDEX, AUC_60_DAY, BRIER_SCORE in PERFORMANCE_METRICS), the equation
bias_corrected = original − optimism holds exactly. -/
theorem C3_bias_correction_identity :
    ∀ m ∈ PERFORMANCE_METRICS, m.2.bias_corrected = m.2.original - m.2.optimism := by
  intro m hm
  simp only [PERFORMANCE_METRICS, List.mem_cons, List.not_mem_nil, or_false] at hm
  rcases hm with h | h | h <;> subst h <;>
    norm_num [C_INDEX, AUC_60_DAY, BRIER_SCORE]

/-- Witness for C3, at the C_INDEX row of the table. -/
theorem C3_bias_correction_identity_witness :
    C_INDEX.bias_corrected = C_INDEX.original - C_INDEX.optimism :=
  C3_bias_correction_identity ("C_INDEX", C_INDEX) (by simp [PERFORMANCE_METRICS])

/-- Claim C8: for every metric in the recorded validation report table, the
95 percent interval contains the bootstrap mean. -/
theorem C8_interval_contains_bootstrap_mean :
    ∀ m ∈ PERFORMANCE_METRICS,
      m.2.ci_95_lo ≤ m.2.bootstrap_mean ∧ m.2.bootstrap_mean ≤ m.2.ci_95_hi := by
  intro m hm
  simp only [PERFORMANCE_METRICS, List.mem_cons, List.not_mem_nil, or_false] at hm
  rcases hm with h | h | h <;> subst h <;>
    norm_num [C_INDEX, AUC_60_DAY, BRIER_SCORE]

/-- Witness for C8, at the C_INDEX row of the table. -/
theorem C8_interval_contains_bootstrap_mean_witness :
    C_INDEX.ci_95_lo ≤ C_INDEX.bootstrap_mean ∧ C_INDEX.bootstrap_mean ≤ C_INDEX.ci_95_hi :=
  C8_interval_contains_bootstrap_mean ("C_INDEX", C_INDEX) (by simp [PERFORMANCE_METRICS])

/-- Claim C9: calling calculate_score twice with the same record and the same
configuration yields identical total score and component mapping; the score
computation is a pure function of its arguments and the constant tables. -/
theorem C9_pure_function (v : Bool) (inp inp' : TRSInput) (h : inp = inp') :
    calculate_score v inp = calculate_score v inp' ∧
    ∀ r r', calculate_score v inp = Except.ok r → calculate_score v inp' = Except.ok r' →
      r.total_score = r'.total_score ∧ r.component_scores = r'.component_scores := by
  subst h
  refine ⟨rfl, fun r r' hr hr' => ?_⟩
  rw [calculate_score_ok hr, calculate_score_ok hr']
  exact ⟨rfl, rfl⟩

/-- The worked example of the TRSCalculator docstring: meld 25, saps_ii 45,
age 55, platelets 70, hcc true, cvvhd false, vhf true. -/
def exampleInput : TRSInput :=
  { meld := some 25, saps_ii := some 45, age := some 55, platelets := some 70,
    hcc := some true, cvvhd := some false, vhf := some true }

/-- Witness for C9 at the docstring example input. -/
theorem C9_pure_function_witness :
    (computeResult exampleInput).total_score = (computeResult exampleInput).total_score ∧
    (computeResult exampleInput).component_scores = (computeResult exampleInput).component_scores :=
  (C9_pure_function true exampleInput exampleInput rfl).2
    (computeResult exampleInput) (computeResult exampleInput) (by rfl) (by rfl)

/-- Claim C7: calculate_batch returns one result per input, in input order;
a patient whose individual calculation raises becomes a recorded failure
entry (valid false, total_score −1, risk_category ERROR) in place, and the
remaining patients are processed unchanged. -/
theorem C7_batch_isolation (v : Bool) (ps : List TRSInput) :
    (calculate_batch v ps).length = ps.length ∧
    (∀ (i : Nat) (p : TRSInput), ps[i]? = some p →
      (calculate_batch v ps)[i]? = some (match calculate_score v p with
        | Except.ok r => r
        | Except.error e => errorResult e)) ∧
    (∀ (i : Nat) (p : TRSInput) (e : String), ps[i]? = some p → calculate_score v p = Except.error e →
      (calculate_batch v ps)[i]? = some (errorResult e) ∧
      (errorResult e).valid = false ∧ (errorResult e).total_score = -1 ∧
      (errorResult e).risk_category = "ERROR") := by
  refine ⟨List.length_map _ _, fun i p hp => ?_, fun i p e hp he => ?_⟩
  · unfold calculate_batch
    rw [List.getElem?_map, hp]
    rfl
  · refine ⟨?_, rfl, rfl, rfl⟩
    unfold calculate_batch
    rw [List.getElem?_map, hp]
    simp [he]

/-- An input that fails range validation: MELD 999 is outside 6-40. -/
def badInput : TRSInput :=
  { meld := some 999, saps_ii := none, age := none, platelets := none,
    hcc := none, cvvhd := none, vhf := none }

/-- The ValueError message `calculate_score` raises on `badInput`. -/
def badInputError : String := "MELD score must be between 6 and 40, got 999"

/-- Witness for C7: a batch of one invalid patient yields one recorded
failure entry. -/
theorem C7_batch_isolation_witness :
    (calculate_batch true [badInput]).length = [badInput].length ∧
    (calculate_batch true [badInput])[0]? = some (errorResult badInputError) ∧
    (errorResult badInputError).valid = false ∧
    (errorResult badInputError).total_score = -1 ∧
    (errorResult badInputError).risk_category = "ERROR" := by
  have h := C7_batch_isolation true [badInput]
  have h3 := h.2.2 0 badInput badInputError (by rfl) (by rfl)
  exact ⟨h.1, h3.1, h3.2.1, h3.2.2.1, h3.2.2.2⟩

/-- Claim C5: every output of the cut-point selection satisfies
youden_index = sensitivity + specificity − 1 exactly, where the sensitivity
is the true-positive rate and the specificity is one minus the
false-positive rate at the selected threshold. -/
theorem C5_youden_identity (fpr tpr thresholds : List ℚ) (h : fpr.length = tpr.length) :
    (selectCutpoint fpr tpr thresholds).2.2.2 =
      (selectCutpoint fpr tpr thresholds).2.1 + (selectCutpoint fpr tpr thresholds).2.2.1 - 1 := by
  unfold selectCutpoint
  have hlen : (youdenScores tpr fpr).length = tpr.length := by
    simp only [youdenScores, List.length_zipWith, h, min_self]
  by_cases hlt : argmaxFirst (youdenScores tpr fpr) < (youdenScores tpr fpr).length
  · have htpr : argmaxFirst (youdenScores tpr fpr) < tpr.length := by omega
    have hfpr : argmaxFirst (youdenScores tpr fpr) < fpr.length := by omega
    simp only [List.getD_eq_getElem?_getD, List.getElem?_eq_getElem hlt,
      List.getElem?_eq_getElem htpr, List.getElem?_eq_getElem hfpr, Option.getD_some]
    simp only [youdenScores, List.getElem_zipWith]
    ring
  · have h1 : (youdenScores tpr fpr).length ≤ argmaxFirst (youdenScores tpr fpr) := by omega
    have h2 : tpr.length ≤ argmaxFirst (youdenScores tpr fpr) := by omega
    have h3 : fpr.length ≤ argmaxFirst (youdenScores tpr fpr) := by omega
    simp only [List.getD_eq_getElem?_getD, List.getElem?_eq_none h1,
      List.getElem?_eq_none h2, List.getElem?_eq_none h3, Option.getD_none]
    ring

/-- Witness for C5 on a concrete three-point ROC. -/
theorem C5_youden_identity_witness :
    (selectCutpoint [0, 1/4, 1/2] [1/2, 3/4, 1] [3, 2, 1]).2.2.2 =
      (selectCutpoint [0, 1/4, 1/2] [1/2, 3/4, 1] [3, 2, 1]).2.1 +
        (selectCutpoint [0, 1/4, 1/2] [1/2, 3/4, 1] [3, 2, 1]).2.2.1 - 1 :=
  C5_youden_identity [0, 1/4, 1/2] [1/2, 3/4, 1] [3, 2, 1] (by rfl)

/-- Counterexample to claim C4 as stated: on ROC operating points whose
youden scores are tied at indices 0 and 2, with strictly decreasing
thresholds [3, 2, 1] as sklearn roc_curve produces them, the selection
(np.argmax) returns threshold 3, not the smallest tied threshold 1. -/
theorem C4_counterexample :
    (youdenScores [1/2, 1/2, 1] [0, 1/4, 1/2]).getD 2 0 =
      (youdenScores [1/2, 1/2, 1] [0, 1/4, 1/2]).getD 0 0 ∧
    (∀ j, j < 3 → (youdenScores [1/2, 1/2, 1] [0, 1/4, 1/2]).getD j 0 ≤
      (youdenScores [1/2, 1/2, 1] [0, 1/4, 1/2]).getD 0 0) ∧
    ([3, 2, 1] : List ℚ).getD 2 0 = 1 ∧
    (selectCutpoint [0, 1/4, 1/2] [1/2, 1/2, 1] [3, 2, 1]).1 = 3 ∧
    ¬ (selectCutpoint [0, 1/4, 1/2] [1/2, 1/2, 1] [3, 2, 1]).1 ≤ 1 := by
  have hy : youdenScores [1/2, 1/2, 1] [0, 1/4, 1/2] = [1/2, 1/4, 1/2] := by
    norm_num [youdenScores]
  have ha : argmaxFirst [(1:ℚ)/2, 1/4, 1/2] = 0 := by
    norm_num [argmaxFirst]
  refine ⟨?_, ?_, ?_, ?_, ?_⟩
  · rw [hy]
    norm_num [List.getD_cons_zero, List.getD_cons_succ]
  · intro j hj
    rw [hy]
    interval_cases j <;> norm_num [List.getD_cons_zero, List.getD_cons_succ]
  · norm_num [List.getD_cons_zero, List.getD_cons_succ]
  · show ([3, 2, 1] : List ℚ).getD
        (argmaxFirst (youdenScores [1/2, 1/2, 1] [0, 1/4, 1/2])) 0 = 3
    rw [hy, ha]
    norm_num [List.getD_cons_zero]
  · show ¬ ([3, 2, 1] : List ℚ).getD
        (argmaxFirst (youdenScores [1/2, 1/2, 1] [0, 1/4, 1/2])) 0 ≤ 1
    rw [hy, ha]
    norm_num [List.getD_cons_zero]

/-- Claim C4 amended: on ties the selection returns the threshold at the
smallest maximizing index, because np.argmax returns the first occurrence
of the maximum; since roc_curve emits thresholds in decreasing order, that
is the largest tied threshold: the selected threshold is ≥ the threshold
of every maximizing index. -/
theorem C4_amended_first_index_largest_threshold (fpr tpr thr : List ℚ)
    (hlen : (youdenScores tpr fpr).length ≤ thr.length)
    (hmono : ∀ b, b < thr.length → ∀ a, a < b → thr.getD b 0 ≤ thr.getD a 0)
    (j : Nat) (hj : j < (youdenScores tpr fpr).length)
    (hmax : (youdenScores tpr fpr).getD j 0 =
      (youdenScores tpr fpr).getD (argmaxFirst (youdenScores tpr fpr)) 0) :
    thr.getD j 0 ≤ (selectCutpoint fpr tpr thr).1 := by
  have hsel : (selectCutpoint fpr tpr thr).1 =
      thr.getD (argmaxFirst (youdenScores tpr fpr)) 0 := rfl
  rw [hsel]
  rcases Nat.lt_or_ge j (argmaxFirst (youdenScores tpr fpr)) with hlt | hge
  · exact absurd hmax (ne_of_lt (argmaxFirst_strict_before _ j hlt))
  · rcases Nat.eq_or_lt_of_le hge with heq | hlt2
    · rw [← heq]
    · exact hmono j (by omega) _ hlt2

/-- Witness for the amended C4 on the counterexample data: the returned
threshold is ≥ the tied threshold at index 2. -/
theorem C4_amended_witness :
    ([3, 2, 1] : List ℚ).getD 2 0 ≤
      (selectCutpoint [0, 1/4, 1/2] [1/2, 1/2, 1] [3, 2, 1]).1 := by
  have hy : youdenScores [1/2, 1/2, 1] [0, 1/4, 1/2] = [1/2, 1/4, 1/2] := by
    norm_num [youdenScores]
  apply C4_amended_first_index_largest_threshold
  · rw [hy]
    norm_num
  · intro b hb a ha
    simp only [List.length_cons, List.length_nil] at hb
    interval_cases b <;> interval_cases a <;>
      norm_num [List.getD_cons_zero, List.getD_cons_succ]
  · rw [hy]
    norm_num
  · rw [hy]
    have ha0 : argmaxFirst [(1:ℚ)/2, 1/4, 1/2] = 0 := by norm_num [argmaxFirst]
    rw [ha0]
    norm_num [List.getD_cons_zero, List.getD_cons_succ]

theorem component_lookup_ne {l : List (String × Int)} {nm k : String}
    (hkeys : ∀ p ∈ l, p.1 = nm) (hne : nm ≠ k) : l.lookup k = none :=
  lookup_eq_none_of_keys fun p hp => by rw [hkeys p hp]; exact hne

theorem lookup_append_skip {k nm : String} {l₁ l₂ : List (String × Int)}
    (hkeys : ∀ p ∈ l₁, p.1 = nm) (hne : nm ≠ k) :
    (l₁ ++ l₂).lookup k = l₂.lookup k :=
  lookup_append_right (component_lookup_ne hkeys hne)

theorem meldComponent_lookup (m : ℚ) :
    (meldComponent (some m)).1.lookup "MELD" =
      some (if m > TRS_CUTPOINTS_MELD then TRS_POINTS_MELD else 0) := by
  simp only [meldComponent]
  split <;> simp [List.lookup, *]

theorem sapsComponent_lookup (s : ℚ) :
    (sapsComponent (some s)).1.lookup "SAPS_II" =
      some (if s > TRS_CUTPOINTS_SAPS_II then TRS_POINTS_SAPS_II else 0) := by
  simp only [sapsComponent]
  split <;> simp [List.lookup, *]

theorem ageComponent_lookup (a : ℚ) :
    (ageComponent (some a)).1.lookup "AGE" =
      some (if a > TRS_CUTPOINTS_AGE then TRS_POINTS_AGE else 0) := by
  simp only [ageComponent]
  split <;> simp [List.lookup, *]

theorem plateletsComponent_lookup (p : ℚ) :
    (plateletsComponent (some p)).1.lookup "PLATELETS" =
      some (if p < TRS_CUTPOINTS_PLATELETS then TRS_POINTS_PLATELETS else 0) := by
  simp only [plateletsComponent]
  split <;> simp [List.lookup, *]

/-- Claim C1: a present continuous variable contributes its configured points
iff it is strictly beyond its cut-point in the configured direction (MELD
greater than 20, SAPS II greater than 42, age greater than 52, platelets less
than 78); a value exactly at the cut-point contributes zero and its component
score is recorded as 0. -/
theorem C1_strict_cutpoint_contributions (v : Bool) (inp : TRSInput) (r : TRSResult)
    (h : calculate_score v inp = Except.ok r) :
    (∀ m, inp.meld = some m → r.component_scores.lookup "MELD" =
      some (if m > TRS_CUTPOINTS_MELD then TRS_POINTS_MELD else 0)) ∧
    (∀ s, inp.saps_ii = some s → r.component_scores.lookup "SAPS_II" =
      some (if s > TRS_CUTPOINTS_SAPS_II then TRS_POINTS_SAPS_II else 0)) ∧
    (∀ a, inp.age = some a → r.component_scores.lookup "AGE" =
      some (if a > TRS_CUTPOINTS_AGE then TRS_POINTS_AGE else 0)) ∧
    (∀ p, inp.platelets = some p → r.component_scores.lookup "PLATELETS" =
      some (if p < TRS_CUTPOINTS_PLATELETS then TRS_POINTS_PLATELETS else 0)) ∧
    (inp.meld = some TRS_CUTPOINTS_MELD → r.component_scores.lookup "MELD" = some 0) ∧
    (inp.saps_ii = some TRS_CUTPOINTS_SAPS_II → r.component_scores.lookup "SAPS_II" = some 0) ∧
    (inp.age = some TRS_CUTPOINTS_AGE → r.component_scores.lookup "AGE" = some 0) ∧
    (inp.platelets = some TRS_CUTPOINTS_PLATELETS →
      r.component_scores.lookup "PLATELETS" = some 0) := by
  obtain rfl : r = computeResult inp := calculate_score_ok h
  have hM : ∀ m, inp.meld = some m → (computeResult inp).component_scores.lookup "MELD" =
      some (if m > TRS_CUTPOINTS_MELD then TRS_POINTS_MELD else 0) := by
    intro m hm
    rw [computeResult_component_scores]
    simp only [List.append_assoc]
    rw [hm]
    exact lookup_append_left (meldComponent_lookup m)
  have hS : ∀ s, inp.saps_ii = some s → (computeResult inp).component_scores.lookup "SAPS_II" =
      some (if s > TRS_CUTPOINTS_SAPS_II then TRS_POINTS_SAPS_II else 0) := by
    intro s hs
    rw [computeResult_component_scores]
    simp only [List.append_assoc]
    rw [lookup_append_skip (meldComponent_facts inp.meld).1 (by decide), hs]
    exact lookup_append_left (sapsComponent_lookup s)
  have hA : ∀ a, inp.age = some a → (computeResult inp).component_scores.lookup "AGE" =
      some (if a > TRS_CUTPOINTS_AGE then TRS_POINTS_AGE else 0) := by
    intro a ha
    rw [computeResult_component_scores]
    simp only [List.append_assoc]
    rw [lookup_append_skip (meldComponent_facts inp.meld).1 (by decide),
      lookup_append_skip (sapsComponent_facts inp.saps_ii).1 (by decide), ha]
    exact lookup_append_left (ageComponent_lookup a)
  have hP : ∀ p, inp.platelets = some p →
      (computeResult inp).component_scores.lookup "PLATELETS" =
      some (if p < TRS_CUTPOINTS_PLATELETS then TRS_POINTS_PLATELETS else 0) := by
    intro p hp
    rw [computeResult_component_scores]
    simp only [List.append_assoc]
    rw [lookup_append_skip (meldComponent_facts inp.meld).1 (by decide),
      lookup_append_skip (sapsComponent_facts inp.saps_ii).1 (by decide),
      lookup_append_skip (ageComponent_facts inp.age).1 (by decide), hp]
    exact lookup_append_left (plateletsComponent_lookup p)
  refine ⟨hM, hS, hA, hP, ?_, ?_, ?_, ?_⟩
  · intro hm
    simpa [lt_irrefl] using hM _ hm
  · intro hs
    simpa [lt_irrefl] using hS _ hs
  · intro ha
    simpa [lt_irrefl] using hA _ ha
  · intro hp
    simpa [lt_irrefl] using hP _ hp

/-- Witness for C1 at the docstring example (MELD 25 strictly above its
cut-point, platelets 70 strictly below theirs). -/
theorem C1_strict_cutpoint_contributions_witness :
    (computeResult exampleInput).component_scores.lookup "MELD" =
      some (if (25:ℚ) > TRS_CUTPOINTS_MELD then TRS_POINTS_MELD else 0) ∧
    (computeResult exampleInput).component_scores.lookup "PLATELETS" =
      some (if (70:ℚ) < TRS_CUTPOINTS_PLATELETS then TRS_POINTS_PLATELETS else 0) := by
  have h := C1_strict_cutpoint_contributions true exampleInput
    (computeResult exampleInput) (by rfl)
  exact ⟨h.1 25 rfl, h.2.2.2.1 70 rfl⟩

theorem computeResult_warnings_mem (inp : TRSInput) (w : String)
    (hw : w ∈ (meldComponent inp.meld).2.2 ++ (sapsComponent inp.saps_ii).2.2 ++
      (ageComponent inp.age).2.2 ++ (plateletsComponent inp.platelets).2.2 ++
      (hccComponent inp.hcc).2.2 ++ (cvvhdComponent inp.cvvhd).2.2 ++
      (vhfComponent inp.vhf).2.2) : w ∈ (computeResult inp).warnings := by
  simp only [computeResult]
  split
  · exact hw
  · exact List.mem_append_left _ hw

theorem computeResult_total_eq_sum (inp : TRSInput) :
    (computeResult inp).total_score =
      ((computeResult inp).component_scores.map Prod.snd).sum := by
  rw [computeResult_component_scores, computeResult_total_score]
  simp only [List.map_append, List.sum_append]
  rw [(meldComponent_facts inp.meld).2.1, (sapsComponent_facts inp.saps_ii).2.1,
    (ageComponent_facts inp.age).2.1, (plateletsComponent_facts inp.platelets).2.1,
    (hccComponent_facts inp.hcc).2.1, (cvvhdComponent_facts inp.cvvhd).2.1,
    (vhfComponent_facts inp.vhf).2.1]

/-- Claim C2: an absent (None) variable contributes zero points, is omitted
from the component-score mapping, and yields a warning rather than an
error; the valid flag is false iff more than the configured maximum of 2
variables are absent, and even then the total score is still computed (it
equals the sum of the contributions of the present variables). -/
theorem C2_missing_handling (v : Bool) (inp : TRSInput) (r : TRSResult)
    (h : calculate_score v inp = Except.ok r) :
    (inp.meld = none → r.component_scores.lookup "MELD" = none ∧
      "MELD score missing" ∈ r.warnings) ∧
    (inp.saps_ii = none → r.component_scores.lookup "SAPS_II" = none ∧
      "SAPS II score missing" ∈ r.warnings) ∧
    (inp.age = none → r.component_scores.lookup "AGE" = none ∧
      "Age missing" ∈ r.warnings) ∧
    (inp.platelets = none → r.component_scores.lookup "PLATELETS" = none ∧
      "Platelet count missing" ∈ r.warnings) ∧
    (inp.hcc = none → r.component_scores.lookup "HCC" = none ∧
      "HCC status missing" ∈ r.warnings) ∧
    (inp.cvvhd = none → r.component_scores.lookup "CVVHD" = none ∧
      "CVVHD status missing" ∈ r.warnings) ∧
    (inp.vhf = none → r.component_scores.lookup "VHF" = none ∧
      "VHF status missing" ∈ r.warnings) ∧
    (r.valid = false ↔ 2 < (_check_missing_data inp).length) ∧
    r.total_score = (r.component_scores.map Prod.snd).sum := by
  obtain rfl : r = computeResult inp := calculate_score_ok h
  refine ⟨?_, ?_, ?_, ?_, ?_, ?_, ?_, ?_, computeResult_total_eq_sum inp⟩
  · intro hm
    refine ⟨?_, computeResult_warnings_mem inp _ (by rw [hm]; simp [meldComponent])⟩
    rw [computeResult_component_scores]
    simp only [List.append_assoc]
    rw [hm]
    simp only [meldComponent, List.nil_append]
    rw [lookup_append_skip (sapsComponent_facts inp.saps_ii).1 (by decide),
      lookup_append_skip (ageComponent_facts inp.age).1 (by decide),
      lookup_append_skip (plateletsComponent_facts inp.platelets).1 (by decide),
      lookup_append_skip (hccComponent_facts inp.hcc).1 (by decide),
      lookup_append_skip (cvvhdComponent_facts inp.cvvhd).1 (by decide)]
    exact component_lookup_ne (vhfComponent_facts inp.vhf).1 (by decide)
  · intro hs
    refine ⟨?_, computeResult_warnings_mem inp _ (by rw [hs]; simp [sapsComponent])⟩
    rw [computeResult_component_scores]
    simp only [List.append_assoc]
    rw [lookup_append_skip (meldComponent_facts inp.meld).1 (by decide), hs]
    simp only [sapsComponent, List.nil_append]
    rw [lookup_append_skip (ageComponent_facts inp.age).1 (by decide),
      lookup_append_skip (plateletsComponent_facts inp.platelets).1 (by decide),
      lookup_append_skip (hccComponent_facts inp.hcc).1 (by decide),
      lookup_append_skip (cvvhdComponent_facts inp.cvvhd).1 (by decide)]
    exact component_lookup_ne (vhfComponent_facts inp.vhf).1 (by decide)
  · intro ha
    refine ⟨?_, computeResult_warnings_mem inp _ (by rw [ha]; simp [ageComponent])⟩
    rw [computeResult_component_scores]
    simp only [List.append_assoc]
    rw [lookup_append_skip (meldComponent_facts inp.meld).1 (by decide),
      lookup_append_skip (sapsComponent_facts inp.saps_ii).1 (by decide), ha]
    simp only [ageComponent, List.nil_append]
    rw [lookup_append_skip (plateletsComponent_facts inp.platelets).1 (by decide),
      lookup_append_skip (hccComponent_facts inp.hcc).1 (by decide),
      lookup_append_skip (cvvhdComponent_facts inp.cvvhd).1 (by decide)]
    exact component_lookup_ne (vhfComponent_facts inp.vhf).1 (by decide)
  · intro hp
    refine ⟨?_, computeResult_warnings_mem inp _ (by rw [hp]; simp [plateletsComponent])⟩
    rw [computeResult_component_scores]
    simp only [List.append_assoc]
    rw [lookup_append_skip (meldComponent_facts inp.meld).1 (by decide),
      lookup_append_skip (sapsComponent_facts inp.saps_ii).1 (by decide),
      lookup_append_skip (ageComponent_facts inp.age).1 (by decide), hp]
    simp only [plateletsComponent, List.nil_append]
    rw [lookup_append_skip (hccComponent_facts inp.hcc).1 (by decide),
      lookup_append_skip (cvvhdComponent_facts inp.cvvhd).1 (by decide)]
    exact component_lookup_ne (vhfComponent_facts inp.vhf).1 (by decide)
  · intro hh
    refine ⟨?_, computeResult_warnings_mem inp _ (by rw [hh]; simp [hccComponent])⟩
    rw [computeResult_component_scores]
    simp only [List.append_assoc]
    rw [lookup_append_skip (meldComponent_facts inp.meld).1 (by decide),
      lookup_append_skip (sapsComponent_facts inp.saps_ii).1 (by decide),
      lookup_append_skip (ageComponent_facts inp.age).1 (by decide),
      lookup_append_skip (plateletsComponent_facts inp.platelets).1 (by decide), hh]
    simp only [hccComponent, List.nil_append]
    rw [lookup_append_skip (cvvhdComponent_facts inp.cvvhd).1 (by decide)]
    exact component_lookup_ne (vhfComponent_facts inp.vhf).1 (by decide)
  · intro hc
    refine ⟨?_, computeResult_warnings_mem inp _ (by rw [hc]; simp [cvvhdComponent])⟩
    rw [computeResult_component_scores]
    simp only [List.append_assoc]
    rw [lookup_append_skip (meldComponent_facts inp.meld).1 (by decide),
      lookup_append_skip (sapsComponent_facts inp.saps_ii).1 (by decide),
      lookup_append_skip (ageComponent_facts inp.age).1 (by decide),
      lookup_append_skip (plateletsComponent_facts inp.platelets).1 (by decide),
      lookup_append_skip (hccComponent_facts inp.hcc).1 (by decide), hc]
    simp only [cvvhdComponent, List.nil_append]
    exact component_lookup_ne (vhfComponent_facts inp.vhf).1 (by decide)
  · intro hv
    refine ⟨?_, computeResult_warnings_mem inp _ (by rw [hv]; simp [vhfComponent])⟩
    rw [computeResult_component_scores]
    simp only [List.append_assoc]
    rw [lookup_append_skip (meldComponent_facts inp.meld).1 (by decide),
      lookup_append_skip (sapsComponent_facts inp.saps_ii).1 (by decide),
      lookup_append_skip (ageComponent_facts inp.age).1 (by decide),
      lookup_append_skip (plateletsComponent_facts inp.platelets).1 (by decide),
      lookup_append_skip (hccComponent_facts inp.hcc).1 (by decide),
      lookup_append_skip (cvvhdComponent_facts inp.cvvhd).1 (by decide), hv]
    simp [vhfComponent, List.lookup]
  · rw [computeResult_valid]
    simp only [decide_eq_false_iff_not, Nat.not_le]

/-- An input with all seven variables absent (every component missing). -/
def allMissingInput : TRSInput :=
  { meld := none, saps_ii := none, age := none, platelets := none,
    hcc := none, cvvhd := none, vhf := none }

/-- Witness for C2 at the all-missing input: MELD is omitted from the
mapping, warned about, and the result is flagged invalid yet scored. -/
theorem C2_missing_handling_witness :
    ((computeResult allMissingInput).component_scores.lookup "MELD" = none ∧
      "MELD score missing" ∈ (computeResult allMissingInput).warnings) ∧
    ((computeResult allMissingInput).valid = false ↔
      2 < (_check_missing_data allMissingInput).length) ∧
    (computeResult allMissingInput).total_score =
      ((computeResult allMissingInput).component_scores.map Prod.snd).sum := by
  have h := C2_missing_handling true allMissingInput
    (computeResult allMissingInput) (by rfl)
  exact ⟨h.1 rfl, h.2.2.2.2.2.2.2.1, h.2.2.2.2.2.2.2.2⟩

/-- A score lying in the inclusive range of a risk category
(the loop condition of `_determine_risk_category`). -/
def inCategoryRange (d : RiskData) (s : Int) : Prop :=
  d.range_lo ≤ s ∧ s ≤ d.range_hi

/-- Claim C10: for a normal return of calculate_score the total score equals
the sum of the component scores and lies in 0..8, the risk category is one
of LOW, MEDIUM, HIGH; the three configured category ranges are pairwise
disjoint and cover every achievable score, and the fallback of
_determine_risk_category is total over all integers (LOW below the table,
HIGH above it). -/
theorem C10_score_invariants (v : Bool) (inp : TRSInput) (r : TRSResult)
    (h : calculate_score v inp = Except.ok r) :
    r.total_score = (r.component_scores.map Prod.snd).sum ∧
    0 ≤ r.total_score ∧ r.total_score ≤ 8 ∧
    (r.risk_category = "LOW" ∨ r.risk_category = "MEDIUM" ∨ r.risk_category = "HIGH") ∧
    (∀ s : Int, ¬(inCategoryRange LOW_DATA s ∧ inCategoryRange MEDIUM_DATA s)) ∧
    (∀ s : Int, ¬(inCategoryRange LOW_DATA s ∧ inCategoryRange HIGH_DATA s)) ∧
    (∀ s : Int, ¬(inCategoryRange MEDIUM_DATA s ∧ inCategoryRange HIGH_DATA s)) ∧
    (∀ s : Int, 0 ≤ s → s ≤ 8 →
      (inCategoryRange LOW_DATA s ∨ inCategoryRange MEDIUM_DATA s ∨
        inCategoryRange HIGH_DATA s)) ∧
    (∀ s : Int, s < 0 → (_determine_risk_category s).1 = "LOW") ∧
    (∀ s : Int, 8 < s → (_determine_risk_category s).1 = "HIGH") := by
  obtain rfl : r = computeResult inp := calculate_score_ok h
  have e1 : TRS_POINTS_MELD = 2 := rfl
  have e2 : TRS_POINTS_SAPS_II = 1 := rfl
  have e3 : TRS_POINTS_AGE = 1 := rfl
  have e4 : TRS_POINTS_PLATELETS = 1 := rfl
  have e5 : TRS_POINTS_HCC = 1 := rfl
  have e6 : TRS_POINTS_CVVHD = 1 := rfl
  have e7 : TRS_POINTS_VHF = 1 := rfl
  have b1 := (meldComponent_facts inp.meld).2.2
  have b2 := (sapsComponent_facts inp.saps_ii).2.2
  have b3 := (ageComponent_facts inp.age).2.2
  have b4 := (plateletsComponent_facts inp.platelets).2.2
  have b5 := (hccComponent_facts inp.hcc).2.2
  have b6 := (cvvhdComponent_facts inp.cvvhd).2.2
  have b7 := (vhfComponent_facts inp.vhf).2.2
  rw [e1] at b1
  rw [e2] at b2
  rw [e3] at b3
  rw [e4] at b4
  rw [e5] at b5
  rw [e6] at b6
  rw [e7] at b7
  refine ⟨computeResult_total_eq_sum inp, ?_, ?_, ?_, ?_, ?_, ?_, ?_, ?_, ?_⟩
  · rw [computeResult_total_score]
    omega
  · rw [computeResult_total_score]
    omega
  · rw [computeResult_risk_category, determine_spec]
    split
    · exact Or.inl rfl
    · split
      · exact Or.inr (Or.inl rfl)
      · split
        · exact Or.inr (Or.inr rfl)
        · split
          · exact Or.inl rfl
          · exact Or.inr (Or.inr rfl)
  · intro s
    simp only [inCategoryRange, LOW_DATA, MEDIUM_DATA]
    omega
  · intro s
    simp only [inCategoryRange, LOW_DATA, HIGH_DATA]
    omega
  · intro s
    simp only [inCategoryRange, MEDIUM_DATA, HIGH_DATA]
    omega
  · intro s h0 h8
    simp only [inCategoryRange, LOW_DATA, MEDIUM_DATA, HIGH_DATA]
    omega
  · intro s hs
    rw [determine_spec, if_neg (by omega), if_neg (by omega), if_neg (by omega), if_pos hs]
  · intro s hs
    rw [determine_spec, if_neg (by omega), if_neg (by omega), if_neg (by omega),
      if_neg (by omega)]

/-- Witness for C10 at the docstring example input. -/
theorem C10_score_invariants_witness :
    (computeResult exampleInput).total_score =
      ((computeResult exampleInput).component_scores.map Prod.snd).sum ∧
    0 ≤ (computeResult exampleInput).total_score ∧
    (computeResult exampleInput).total_score ≤ 8 ∧
    ((computeResult exampleInput).risk_category = "LOW" ∨
      (computeResult exampleInput).risk_category = "MEDIUM" ∨
      (computeResult exampleInput).risk_category = "HIGH") := by
  have h := C10_score_invariants true exampleInput (computeResult exampleInput) (by rfl)
  exact ⟨h.1, h.2.1, h.2.2.1, h.2.2.2.1⟩

/-- A present value outside the closed range `[lo, hi]`: the condition under
which `_validate_inputs` raises for that variable. -/
def outOfRange (lo hi : ℚ) (v : Option ℚ) : Prop :=
  ∃ x, v = some x ∧ ¬(lo ≤ x ∧ x ≤ hi)

theorem checkRange_error_iff (name : String) (lo hi : ℚ) (v : Option ℚ) :
    (∃ e, checkRange name lo hi v = Except.error e) ↔ outOfRange lo hi v := by
  cases v with
  | none => simp [checkRange, outOfRange]
  | some x =>
    simp only [checkRange, outOfRange]
    split
    · simp_all
    · simp_all

theorem validate_error_iff (inp : TRSInput) :
    (∃ e, _validate_inputs inp = Except.error e) ↔
      (outOfRange MELD_RANGE.1 MELD_RANGE.2 inp.meld ∨
       outOfRange SAPS_II_RANGE.1 SAPS_II_RANGE.2 inp.saps_ii ∨
       outOfRange AGE_RANGE.1 AGE_RANGE.2 inp.age ∨
       outOfRange PLATELETS_RANGE.1 PLATELETS_RANGE.2 inp.platelets) := by
  have c1 := checkRange_error_iff "MELD score" MELD_RANGE.1 MELD_RANGE.2 inp.meld
  have c2 := checkRange_error_iff "SAPS II score" SAPS_II_RANGE.1 SAPS_II_RANGE.2 inp.saps_ii
  have c3 := checkRange_error_iff "Age" AGE_RANGE.1 AGE_RANGE.2 inp.age
  have c4 := checkRange_error_iff "Platelet count" PLATELETS_RANGE.1 PLATELETS_RANGE.2
    inp.platelets
  unfold _validate_inputs
  cases h1 : checkRange "MELD score" MELD_RANGE.1 MELD_RANGE.2 inp.meld with
  | error e1 =>
    have hb : outOfRange MELD_RANGE.1 MELD_RANGE.2 inp.meld := c1.mp ⟨e1, h1⟩
    simp [hb]
  | ok u1 =>
    cases u1
    have n1 : ¬ outOfRange MELD_RANGE.1 MELD_RANGE.2 inp.meld := by
      intro hb
      obtain ⟨e, he⟩ := c1.mpr hb
      rw [h1] at he
      cases he
    cases h2 : checkRange "SAPS II score" SAPS_II_RANGE.1 SAPS_II_RANGE.2 inp.saps_ii with
    | error e2 =>
      have hb : outOfRange SAPS_II_RANGE.1 SAPS_II_RANGE.2 inp.saps_ii := c2.mp ⟨e2, h2⟩
      simp [n1, hb]
    | ok u2 =>
      cases u2
      have n2 : ¬ outOfRange SAPS_II_RANGE.1 SAPS_II_RANGE.2 inp.saps_ii := by
        intro hb
        obtain ⟨e, he⟩ := c2.mpr hb
        rw [h2] at he
        cases he
      cases h3 : checkRange "Age" AGE_RANGE.1 AGE_RANGE.2 inp.age with
      | error e3 =>
        have hb : outOfRange AGE_RANGE.1 AGE_RANGE.2 inp.age := c3.mp ⟨e3, h3⟩
        simp [n1, n2, hb]
      | ok u3 =>
        cases u3
        have n3 : ¬ outOfRange AGE_RANGE.1 AGE_RANGE.2 inp.age := by
          intro hb
          obtain ⟨e, he⟩ := c3.mpr hb
          rw [h3] at he
          cases he
        simp [n1, n2, n3, c4]

/-- Claim C6: calculate_score raises a range error iff validation is enabled
and some present continuous value lies outside its declared valid range
(MELD 6-40, SAPS II 0-163, age 18-80, platelets 10-500); with validation
disabled no input raises and the record is scored normally. -/
theorem C6_range_validation (v : Bool) (inp : TRSInput) :
    ((∃ e, calculate_score v inp = Except.error e) ↔
      (v = true ∧
        (outOfRange MELD_RANGE.1 MELD_RANGE.2 inp.meld ∨
         outOfRange SAPS_II_RANGE.1 SAPS_II_RANGE.2 inp.saps_ii ∨
         outOfRange AGE_RANGE.1 AGE_RANGE.2 inp.age ∨
         outOfRange PLATELETS_RANGE.1 PLATELETS_RANGE.2 inp.platelets))) ∧
    (v = false → calculate_score v inp = Except.ok (computeResult inp)) := by
  constructor
  · cases v with
    | false => simp [calculate_score]
    | true =>
      simp only [calculate_score, if_true, true_and]
      rw [← validate_error_iff inp]
      cases hv : _validate_inputs inp with
      | error e => simp [hv]
      | ok u =>
        cases u
        constructor
        · intro hex
          obtain ⟨e, he⟩ := hex
          simp at he
        · intro hex
          obtain ⟨e, he⟩ := hex
          simp at he
  · intro hv
    subst hv
    rfl

/-- Witness for C6: with validation enabled, badInput (MELD 999) raises and
the docstring example does not; with validation disabled badInput is scored. -/
theorem C6_range_validation_witness :
    ((∃ e, calculate_score false badInput = Except.error e) ↔
      (false = true ∧
        (outOfRange MELD_RANGE.1 MELD_RANGE.2 badInput.meld ∨
         outOfRange SAPS_II_RANGE.1 SAPS_II_RANGE.2 badInput.saps_ii ∨
         outOfRange AGE_RANGE.1 AGE_RANGE.2 badInput.age ∨
         outOfRange PLATELETS_RANGE.1 PLATELETS_RANGE.2 badInput.platelets))) ∧
    calculate_score false badInput = Except.ok (computeResult badInput) :=
  ⟨(C6_range_validation false badInput).1,
    (C6_range_validation false badInput).2 rfl⟩

end TRS
